import Mathlib

/-!
# go_api_boilerplate: the user controller

A shallow embedding of `controllers/user_controller.go`.

* A handler is a function of the controller (its two services), the request
  context and the state of the world behind the services. It returns the state
  of the world after the request, the chronological list of service calls it
  made, and what it wrote as response (or that it panicked).
* `uint` and `int` are `Nat` and `Int`; the one conversion `uint(userID)` in
  `getUserID` wraps modulo `2 ^ 64`.
* A Go result `(T, error)` is an `Except String T`, the string being
  `err.Error()`: the controller looks at nothing else of an error. A result that
  is only an `error` is an `Option String`, `none` being `nil`. A lookup that
  returns a nil error returns a record.
* `userservice.UserService` and `authservice.AuthService` are interfaces: they
  are parameters, structures of functions over an arbitrary world type `σ`.
-/

namespace http

abbrev StatusOK : Nat := 200
abbrev StatusBadRequest : Nat := 400
abbrev StatusUnauthorized : Nat := 401
abbrev StatusNotFound : Nat := 404
abbrev StatusInternalServerError : Nat := 500

end http

namespace user

/-- Modelled from the spec: the record type `user.User` of `domain/user`, with
the attributes of the data model, which are the fields the controller reads and
writes. -/
structure User where
  ID : Nat
  FirstName : String
  LastName : String
  Email : String
  Password : String
  Role : String
  Active : Bool
deriving DecidableEq, Repr

end user

namespace gin

/-- A dynamic value held in an `interface{}`, tagged with its dynamic type. -/
inductive Value where
  | nil
  | uint (n : Nat)
  | int (i : Int)
  | string (s : String)
deriving DecidableEq, Repr

/-- The type assertion `v.(uint)`: `none` stands for the run-time panic raised
when the dynamic type of `v` is not `uint`. -/
def Value.assertUint : Value → Option Nat
  | .uint n => some n
  | _ => none

end gin

namespace strconv

/-- Value of a decimal digit, `none` for any other character. -/
def digit (c : Char) : Option Nat :=
  if 48 ≤ c.toNat ∧ c.toNat ≤ 57 then some (c.toNat - 48) else none

/-- Reads a run of decimal digits, most significant first, onto `acc`. -/
def digits : List Char → Nat → Option Nat
  | [], acc => some acc
  | c :: cs, acc =>
    match digit c with
    | none => none
    | some d => digits cs (acc * 10 + d)

/-- Magnitude of the text after the optional sign: at least one character, all
of them decimal digits. -/
def magnitude (cs : List Char) : Option Nat :=
  if cs = [] then none else digits cs 0

/-- The library function `strconv.Atoi` on a platform whose `int` has 64 bits:
an optional sign, then one or more decimal digits, the value within
`[-2^63, 2^63 - 1]`. `none` stands for every non-nil error. -/
def Atoi (s : String) : Option Int :=
  match s.toList with
  | [] => none
  | c :: cs =>
    if c = '-' then
      match magnitude cs with
      | none => none
      | some m => if m ≤ 2 ^ 63 then some (-(m : Int)) else none
    else if c = '+' then
      match magnitude cs with
      | none => none
      | some m => if m < 2 ^ 63 then some (m : Int) else none
    else
      match magnitude (c :: cs) with
      | none => none
      | some m => if m < 2 ^ 63 then some (m : Int) else none

end strconv

namespace strings

/-- The library function `strings.Contains`: `substr` occurs within `s`. -/
def Contains (s substr : String) : Bool :=
  s.toList.tails.any (fun t => substr.toList.isPrefixOf t)

end strings

namespace controllers

open user

/-- UserInput represents login/register request body format. -/
structure UserInput where
  Email : String
  Password : String
deriving DecidableEq, Repr

/-- UserOutput represents returning user. -/
structure UserOutput where
  ID : Nat
  FirstName : String
  LastName : String
  Email : String
  Role : String
  Active : Bool
deriving DecidableEq, Repr

/-- UserUpdateInput represents updating profile request body format. -/
structure UserUpdateInput where
  FirstName : String
  LastName : String
  Email : String
deriving DecidableEq, Repr

/-- The values the controller passes as `data` to `HTTPRes`: `nil`, a
`*UserOutput`, or the map `gin.H{"token": token, "user": userOutput}`. -/
inductive Data where
  | nil
  | user (o : UserOutput)
  | tokenUser (token : String) (o : UserOutput)
deriving DecidableEq, Repr

/-- The response envelope `{status, message, data}`. -/
structure Response where
  status : Nat
  message : String
  data : Data
deriving DecidableEq, Repr

/-- Modelled from the spec: the helper `HTTPRes` of package `controllers`, which
is not among the source files; it writes the envelope `{status, message, data}`
with the given HTTP status. -/
def HTTPRes (status : Nat) (message : String) (data : Data) : Response :=
  { status := status, message := message, data := data }

/-- The part of `*gin.Context` the controller reads. `Keys` is the request-scoped
store behind `c.Get`, `Params` the path parameters behind `c.Param`, and the two
`Bind` fields are what `c.ShouldBindJSON` yields on this request's body for a
target of that type. -/
structure Context where
  Keys : String → Option gin.Value
  Params : String → String
  BindUserInput : Except String UserInput
  BindUserUpdateInput : Except String UserUpdateInput

/-- The method `c.Get(key)`: the value and whether it exists. -/
def Context.Get (c : Context) (key : String) : Option gin.Value := c.Keys key

/-- The method `c.Param(key)`. -/
def Context.Param (c : Context) (key : String) : String := c.Params key

/-- The interface `userservice.UserService` over a world `σ`. `Create` and
`Update` receive a pointer: they return the record as they leave it together
with their error. -/
structure UserService (σ : Type) where
  Create : User → σ → (User × Option String) × σ
  GetByID : Nat → σ → Except String User × σ
  GetByEmail : String → σ → Except String User × σ
  ComparePassword : String → String → σ → Option String × σ
  Update : User → σ → (User × Option String) × σ

/-- The interface `authservice.AuthService` over a world `σ`. -/
structure AuthService (σ : Type) where
  IssueToken : User → σ → Except String String × σ

/-- A call made on one of the two services, with its arguments. -/
inductive Call where
  | Create (u : User)
  | GetByID (id : Nat)
  | GetByEmail (email : String)
  | ComparePassword (rawPassword passwordFromDB : String)
  | Update (u : User)
  | IssueToken (u : User)
deriving DecidableEq, Repr

/-- What a handler leaves on the wire. -/
inductive Outcome where
  | response (r : Response)
  | panic
deriving DecidableEq, Repr

/-- A finished request: the world after it, the service calls made in order, and
the outcome. -/
structure Result (σ : Type) where
  world : σ
  calls : List Call
  outcome : Outcome

structure userController (σ : Type) where
  us : UserService σ
  as : AuthService σ

variable {σ : Type}

def getUserID (userIDParam : String) : Nat × Option String :=
  match strconv.Atoi userIDParam with
  | none => (0, some "user id should be a number")
  | some userID => ((userID % 2 ^ 64).toNat, none)

def inputToUser (input : UserInput) : User :=
  { ID := 0, FirstName := "", LastName := "", Email := input.Email,
    Password := input.Password, Role := "", Active := false }

def mapToUserOutput (u : User) : UserOutput :=
  { ID := u.ID, Email := u.Email, FirstName := u.FirstName, LastName := u.LastName,
    Role := u.Role, Active := u.Active }

/-- Issue token and return user: the error returned, or the response written. -/
def login (ctl : userController σ) (u : User) (w : σ) : Except String Response × σ :=
  match ctl.as.IssueToken u w with
  | (.error err, w1) => (.error err, w1)
  | (.ok token, w1) =>
    let userOutput := mapToUserOutput u
    (.ok (HTTPRes http.StatusOK "ok" (.tokenUser token userOutput)), w1)

def Register (ctl : userController σ) (c : Context) (w : σ) : Result σ :=
  match c.BindUserInput with
  | .error err => ⟨w, [], .response (HTTPRes http.StatusBadRequest err .nil)⟩
  | .ok userInput =>
    let u := inputToUser userInput
    match ctl.us.Create u w with
    | ((_, some err), w1) =>
      ⟨w1, [.Create u], .response (HTTPRes http.StatusInternalServerError err .nil)⟩
    | ((u1, none), w1) =>
      match login ctl u1 w1 with
      | (.error err, w2) =>
        ⟨w2, [.Create u, .IssueToken u1],
          .response (HTTPRes http.StatusInternalServerError err .nil)⟩
      | (.ok res, w2) => ⟨w2, [.Create u, .IssueToken u1], .response res⟩

def Login (ctl : userController σ) (c : Context) (w : σ) : Result σ :=
  match c.BindUserInput with
  | .error err => ⟨w, [], .response (HTTPRes http.StatusBadRequest err .nil)⟩
  | .ok userInput =>
    match ctl.us.GetByEmail userInput.Email w with
    | (.error err, w1) =>
      ⟨w1, [.GetByEmail userInput.Email],
        .response (HTTPRes http.StatusInternalServerError err .nil)⟩
    | (.ok user, w1) =>
      match ctl.us.ComparePassword userInput.Password user.Password w1 with
      | (some err, w2) =>
        ⟨w2, [.GetByEmail userInput.Email,
              .ComparePassword userInput.Password user.Password],
          .response (HTTPRes http.StatusBadRequest err .nil)⟩
      | (none, w2) =>
        match login ctl user w2 with
        | (.error err, w3) =>
          ⟨w3, [.GetByEmail userInput.Email,
                .ComparePassword userInput.Password user.Password, .IssueToken user],
            .response (HTTPRes http.StatusInternalServerError err .nil)⟩
        | (.ok res, w3) =>
          ⟨w3, [.GetByEmail userInput.Email,
                .ComparePassword userInput.Password user.Password, .IssueToken user],
            .response res⟩

def GetByID (ctl : userController σ) (c : Context) (w : σ) : Result σ :=
  match getUserID (c.Param "id") with
  | (_, some err) => ⟨w, [], .response (HTTPRes http.StatusBadRequest err .nil)⟩
  | (id, none) =>
    match ctl.us.GetByID id w with
    | (.error es, w1) =>
      if strings.Contains es "not found" then
        ⟨w1, [.GetByID id], .response (HTTPRes http.StatusNotFound es .nil)⟩
      else
        ⟨w1, [.GetByID id], .response (HTTPRes http.StatusInternalServerError es .nil)⟩
    | (.ok user, w1) =>
      let userOutput := mapToUserOutput user
      ⟨w1, [.GetByID id], .response (HTTPRes http.StatusOK "ok" (.user userOutput))⟩

def GetProfile (ctl : userController σ) (c : Context) (w : σ) : Result σ :=
  match c.Get "user_id" with
  | none => ⟨w, [], .response (HTTPRes http.StatusBadRequest "Invalid User ID" .nil)⟩
  | some id =>
    match id.assertUint with
    | none => ⟨w, [], .panic⟩
    | some n =>
      match ctl.us.GetByID n w with
      | (.error err, w1) =>
        ⟨w1, [.GetByID n], .response (HTTPRes http.StatusInternalServerError err .nil)⟩
      | (.ok user, w1) =>
        let userOutput := mapToUserOutput user
        ⟨w1, [.GetByID n], .response (HTTPRes http.StatusOK "ok" (.user userOutput))⟩

def Update (ctl : userController σ) (c : Context) (w : σ) : Result σ :=
  -- Get user id from context
  match c.Get "user_id" with
  | none => ⟨w, [], .response (HTTPRes http.StatusBadRequest "Invalid User ID" .nil)⟩
  | some id =>
    -- Retrieve user given id
    match id.assertUint with
    | none => ⟨w, [], .panic⟩
    | some n =>
      match ctl.us.GetByID n w with
      | (.error err, w1) =>
        ⟨w1, [.GetByID n], .response (HTTPRes http.StatusInternalServerError err .nil)⟩
      | (.ok user, w1) =>
        -- Read user input
        match c.BindUserUpdateInput with
        | .error err =>
          ⟨w1, [.GetByID n], .response (HTTPRes http.StatusBadRequest err .nil)⟩
        | .ok userInput =>
          -- Check user: `user.ID != id` converts `user.ID` to the interface type
          -- and compares dynamic type and dynamic value
          if gin.Value.uint user.ID ≠ id then
            ⟨w1, [.GetByID n], .response (HTTPRes http.StatusUnauthorized "Unauthorized" .nil)⟩
          else
            -- Update user record
            let user := { user with FirstName := userInput.FirstName,
                                    LastName := userInput.LastName,
                                    Email := userInput.Email }
            match ctl.us.Update user w1 with
            | ((_, some err), w2) =>
              ⟨w2, [.GetByID n, .Update user],
                .response (HTTPRes http.StatusInternalServerError err .nil)⟩
            | ((user1, none), w2) =>
              -- Response
              let userOutput := mapToUserOutput user1
              ⟨w2, [.GetByID n, .Update user],
                .response (HTTPRes http.StatusOK "ok" (.user userOutput))⟩

/-! ## Test doubles of the two services

Canned services over a world that counts the writes made so far; they serve as
the concrete inputs at which the theorems below are instantiated. -/

/-- A user service that answers every lookup with `found`, and whose `Create`,
`ComparePassword` and `Update` fail with the given error when there is one. A
successful `Create` assigns the next id and stores a hash; every successful
write advances the world. -/
def fakeUserService (found : Except String User)
    (createErr compareErr updateErr : Option String) : UserService Nat where
  Create u w :=
    match createErr with
    | some err => ((u, some err), w)
    | none => (({ u with ID := w + 1, Password := "hash", Active := true }, none), w + 1)
  GetByID _ w := (found, w)
  GetByEmail _ w := (found, w)
  ComparePassword _ _ w := (compareErr, w)
  Update u w :=
    match updateErr with
    | some err => ((u, some err), w)
    | none => ((u, none), w + 1)

/-- An auth service that always issues the token `"jwt"`. -/
def fakeAuthService : AuthService Nat where
  IssueToken _ w := (.ok "jwt", w)

/-- A controller over the two test doubles. -/
def fakeController (found : Except String User)
    (createErr compareErr updateErr : Option String) : userController Nat :=
  { us := fakeUserService found createErr compareErr updateErr, as := fakeAuthService }

/-- The stored record of Alice, id 1. -/
def alice : User :=
  { ID := 1, FirstName := "Alice", LastName := "A", Email := "alice@example.com",
    Password := "hash", Role := "admin", Active := true }

/-- The stored record of Bob, id 2. -/
def bob : User :=
  { ID := 2, FirstName := "Bob", LastName := "B", Email := "bob@example.com",
    Password := "hash", Role := "", Active := true }

/-- A request with nothing in its context store, no path parameter and an
unreadable body. -/
def emptyContext : Context :=
  { Keys := fun _ => none, Params := fun _ => "",
    BindUserInput := .error "EOF", BindUserUpdateInput := .error "EOF" }

/-- A request on a protected route: the middleware has stored the id 1 as a
`uint`, and the body binds as a profile update. -/
def profileContext : Context :=
  { emptyContext with
    Keys := fun key => if key = "user_id" then some (.uint 1) else none,
    BindUserUpdateInput :=
      .ok { FirstName := "Alicia", LastName := "", Email := "alicia@example.com" } }

/-- A register or login request with a readable body. -/
def credentialsContext : Context :=
  { emptyContext with
    BindUserInput := .ok { Email := "alice@example.com", Password := "secret" } }

/-- A request for `/users/:id` with the given text as `id`. -/
def paramContext (id : String) : Context :=
  { emptyContext with Params := fun key => if key = "id" then id else "" }

end controllers

/-! ## Theorems -/

namespace strconv

/-- A text that `Atoi` parses denotes a value of the 64-bit `int` range. -/
theorem Atoi_range (s : String) (n : Int) (h : Atoi s = some n) :
    -(2 : Int) ^ 63 ≤ n ∧ n < (2 : Int) ^ 63 := by
  unfold Atoi at h
  split at h
  · simp at h
  · split_ifs at h <;> split at h <;> try simp at h
    all_goals
      obtain ⟨hm, rfl⟩ := h
      constructor <;> omega

end strconv

namespace controllers

open user

variable {σ : Type}

/-- C1: in `Update`, when the context id is the uint `n`, `GetByID n` returns a
record and the body binds, but the record's `ID` differs from `n`, the handler
answers 401 "Unauthorized" with nil data; the only service call made is the
lookup, so the service's `Update` is not invoked and the world is the one the
lookup left. -/
theorem Update_rejects_foreign_record (ctl : userController σ) (c : Context) (w w1 : σ)
    (n : Nat) (r : User) (body : UserUpdateInput)
    (hid : c.Get "user_id" = some (.uint n))
    (hget : ctl.us.GetByID n w = (.ok r, w1))
    (hbind : c.BindUserUpdateInput = .ok body)
    (hne : r.ID ≠ n) :
    (Update ctl c w).outcome
        = .response { status := 401, message := "Unauthorized", data := .nil } ∧
      (Update ctl c w).calls = [.GetByID n] ∧
      (∀ u, Call.Update u ∉ (Update ctl c w).calls) ∧
      (Update ctl c w).world = w1 := by
  have hne' : gin.Value.uint r.ID ≠ gin.Value.uint n := by
    intro h
    exact hne (gin.Value.uint.inj h)
  simp [Update, hid, gin.Value.assertUint, hget, hbind, hne', HTTPRes]

theorem Update_rejects_foreign_record_witness :
    (Update (fakeController (.ok bob) none none none) profileContext 0).outcome
        = .response { status := 401, message := "Unauthorized", data := .nil } ∧
      (Update (fakeController (.ok bob) none none none) profileContext 0).calls
        = [.GetByID 1] ∧
      (∀ u, Call.Update u ∉
        (Update (fakeController (.ok bob) none none none) profileContext 0).calls) ∧
      (Update (fakeController (.ok bob) none none none) profileContext 0).world = 0 :=
  Update_rejects_foreign_record (fakeController (.ok bob) none none none) profileContext 0 0 1
    bob { FirstName := "Alicia", LastName := "", Email := "alicia@example.com" }
    (by decide) rfl rfl (by decide)

/-- C2: in `GetByID`, when the `id` path parameter is numeric (`getUserID` yields
`id` and no error): a lookup failing with a not-found error, that is an error
whose message contains "not found", is answered 404 (and so not 500); a lookup
failing with any other error is answered 500; a lookup returning a record is
answered 200 "ok" with the mapped user. -/
theorem GetByID_status_follows_lookup (ctl : userController σ) (c : Context) (w : σ)
    (id : Nat) (hid : getUserID (c.Param "id") = (id, none)) :
    (∀ (es : String) (w1 : σ), ctl.us.GetByID id w = (.error es, w1) →
        strings.Contains es "not found" = true →
        (GetByID ctl c w).outcome
            = .response { status := 404, message := es, data := .nil } ∧
          (GetByID ctl c w).outcome
            ≠ .response { status := 500, message := es, data := .nil }) ∧
      (∀ (es : String) (w1 : σ), ctl.us.GetByID id w = (.error es, w1) →
        strings.Contains es "not found" = false →
        (GetByID ctl c w).outcome
          = .response { status := 500, message := es, data := .nil }) ∧
      (∀ (u : User) (w1 : σ), ctl.us.GetByID id w = (.ok u, w1) →
        (GetByID ctl c w).outcome
          = .response { status := 200, message := "ok",
                        data := .user (mapToUserOutput u) }) := by
  refine ⟨?_, ?_, ?_⟩
  · intro es w1 hget hnf
    simp [GetByID, hid, hget, hnf, HTTPRes]
  · intro es w1 hget hnf
    simp [GetByID, hid, hget, hnf, HTTPRes]
  · intro u w1 hget
    simp [GetByID, hid, hget, HTTPRes]

theorem GetByID_status_follows_lookup_witness :
    (GetByID (fakeController (.error "record not found") none none none)
        (paramContext "7") 0).outcome
        = .response { status := 404, message := "record not found", data := .nil } ∧
      (GetByID (fakeController (.error "connection refused") none none none)
        (paramContext "7") 0).outcome
        = .response { status := 500, message := "connection refused", data := .nil } ∧
      (GetByID (fakeController (.ok alice) none none none) (paramContext "7") 0).outcome
        = .response { status := 200, message := "ok",
                      data := .user { ID := 1, FirstName := "Alice", LastName := "A",
                                      Email := "alice@example.com", Role := "admin",
                                      Active := true } } :=
  ⟨((GetByID_status_follows_lookup
        (fakeController (.error "record not found") none none none) (paramContext "7") 0 7
        (by decide)).1 "record not found" 0 rfl (by decide)).1,
   (GetByID_status_follows_lookup
        (fakeController (.error "connection refused") none none none) (paramContext "7") 0 7
        (by decide)).2.1 "connection refused" 0 rfl (by decide),
   (GetByID_status_follows_lookup (fakeController (.ok alice) none none none)
        (paramContext "7") 0 7 (by decide)).2.2 alice 0 rfl⟩

/-- C3: evaluation of `Login`, `GetProfile` and `Update` against a user service
whose lookup fails with the not-found error "record not found": each answers
500 with that message, whereas `GetByID` answers 404 for the same error. -/
theorem lookup_not_found_answered_500 :
    (Login (fakeController (.error "record not found") none none none)
        credentialsContext 0).outcome
        = .response { status := 500, message := "record not found", data := .nil } ∧
      (GetProfile (fakeController (.error "record not found") none none none)
        profileContext 0).outcome
        = .response { status := 500, message := "record not found", data := .nil } ∧
      (Update (fakeController (.error "record not found") none none none)
        profileContext 0).outcome
        = .response { status := 500, message := "record not found", data := .nil } ∧
      (GetByID (fakeController (.error "record not found") none none none)
        (paramContext "1") 0).outcome
        = .response { status := 404, message := "record not found", data := .nil } := by
  refine ⟨rfl, ?_, ?_, ?_⟩ <;> decide

/-- C4: in `Login`, when the body binds to `input`, the lookup by email returns
the record `u`, and `ComparePassword input.Password u.Password` returns the
error `err`, the handler answers 400 with message `err` and nil data (so no
token is in the response); the calls made are the lookup and the comparison,
and `IssueToken` is not among them. -/
theorem Login_wrong_password (ctl : userController σ) (c : Context) (w w1 w2 : σ)
    (input : UserInput) (u : User) (err : String)
    (hbind : c.BindUserInput = .ok input)
    (hget : ctl.us.GetByEmail input.Email w = (.ok u, w1))
    (hcmp : ctl.us.ComparePassword input.Password u.Password w1 = (some err, w2)) :
    (Login ctl c w).outcome = .response { status := 400, message := err, data := .nil } ∧
      (Login ctl c w).calls
        = [.GetByEmail input.Email, .ComparePassword input.Password u.Password] ∧
      (∀ x, Call.IssueToken x ∉ (Login ctl c w).calls) ∧
      (Login ctl c w).world = w2 := by
  simp [Login, hbind, hget, hcmp, HTTPRes]

theorem Login_wrong_password_witness :
    (Login (fakeController (.ok alice) none (some "invalid password") none)
        credentialsContext 0).outcome
        = .response { status := 400, message := "invalid password", data := .nil } ∧
      (Login (fakeController (.ok alice) none (some "invalid password") none)
        credentialsContext 0).calls
        = [.GetByEmail "alice@example.com", .ComparePassword "secret" "hash"] ∧
      (∀ x, Call.IssueToken x ∉
        (Login (fakeController (.ok alice) none (some "invalid password") none)
          credentialsContext 0).calls) ∧
      (Login (fakeController (.ok alice) none (some "invalid password") none)
        credentialsContext 0).world = 0 :=
  Login_wrong_password (fakeController (.ok alice) none (some "invalid password") none)
    credentialsContext 0 0 0 { Email := "alice@example.com", Password := "secret" } alice
    "invalid password" rfl rfl rfl

/-- C5: `mapToUserOutput` copies exactly `ID`, `FirstName`, `LastName`, `Email`,
`Role` and `Active`, so replacing the `Password` of a user `u` by any `p` leaves
the mapped output unchanged. Hence the successful response of every handler does
not depend on `p`: when the record the services hand to the handler is `u` with
password `p` (and the token issued is `token`), `login`, `Register` and `Login`
answer 200 with `token` and the output mapped from `u`, and `GetByID`,
`GetProfile` and `Update` answer 200 with the output mapped from `u` (for
`Update`, from `u` with the names and email of the body). -/
theorem mapToUserOutput_ignores_password (u : User) (p : String) :
    mapToUserOutput u
        = { ID := u.ID, FirstName := u.FirstName, LastName := u.LastName,
            Email := u.Email, Role := u.Role, Active := u.Active } ∧
      mapToUserOutput { u with Password := p } = mapToUserOutput u ∧
      (∀ (ctl : userController σ) (w w1 : σ) (token : String),
        ctl.as.IssueToken { u with Password := p } w = (.ok token, w1) →
        (login ctl { u with Password := p } w).1
          = .ok { status := 200, message := "ok",
                  data := .tokenUser token (mapToUserOutput u) }) ∧
      (∀ (ctl : userController σ) (c : Context) (w w1 w2 : σ) (input : UserInput)
          (token : String),
        c.BindUserInput = .ok input →
        ctl.us.Create (inputToUser input) w = (({ u with Password := p }, none), w1) →
        ctl.as.IssueToken { u with Password := p } w1 = (.ok token, w2) →
        (Register ctl c w).outcome
          = .response { status := 200, message := "ok",
                        data := .tokenUser token (mapToUserOutput u) }) ∧
      (∀ (ctl : userController σ) (c : Context) (w w1 w2 w3 : σ) (input : UserInput)
          (token : String),
        c.BindUserInput = .ok input →
        ctl.us.GetByEmail input.Email w = (.ok { u with Password := p }, w1) →
        ctl.us.ComparePassword input.Password p w1 = (none, w2) →
        ctl.as.IssueToken { u with Password := p } w2 = (.ok token, w3) →
        (Login ctl c w).outcome
          = .response { status := 200, message := "ok",
                        data := .tokenUser token (mapToUserOutput u) }) ∧
      (∀ (ctl : userController σ) (c : Context) (w w1 : σ) (id : Nat),
        getUserID (c.Param "id") = (id, none) →
        ctl.us.GetByID id w = (.ok { u with Password := p }, w1) →
        (GetByID ctl c w).outcome
          = .response { status := 200, message := "ok",
                        data := .user (mapToUserOutput u) }) ∧
      (∀ (ctl : userController σ) (c : Context) (w w1 : σ) (n : Nat),
        c.Get "user_id" = some (.uint n) →
        ctl.us.GetByID n w = (.ok { u with Password := p }, w1) →
        (GetProfile ctl c w).outcome
          = .response { status := 200, message := "ok",
                        data := .user (mapToUserOutput u) }) ∧
      (∀ (ctl : userController σ) (c : Context) (w w1 w2 : σ) (body : UserUpdateInput),
        c.Get "user_id" = some (.uint u.ID) →
        ctl.us.GetByID u.ID w = (.ok { u with Password := p }, w1) →
        c.BindUserUpdateInput = .ok body →
        ctl.us.Update (User.mk u.ID body.FirstName body.LastName body.Email p u.Role
            u.Active) w1
          = ((User.mk u.ID body.FirstName body.LastName body.Email p u.Role u.Active,
              none), w2) →
        (Update ctl c w).outcome
          = .response { status := 200, message := "ok",
                        data := .user (mapToUserOutput
                          (User.mk u.ID body.FirstName body.LastName body.Email
                            u.Password u.Role u.Active)) }) := by
  refine ⟨rfl, rfl, ?_, ?_, ?_, ?_, ?_, ?_⟩
  · intro ctl w w1 token h
    simp [login, h, mapToUserOutput, HTTPRes]
  · intro ctl c w w1 w2 input token hbind hcreate htoken
    simp [Register, hbind, hcreate, login, htoken, mapToUserOutput, HTTPRes]
  · intro ctl c w w1 w2 w3 input token hbind hget hcmp htoken
    simp [Login, hbind, hget, hcmp, login, htoken, mapToUserOutput, HTTPRes]
  · intro ctl c w w1 id hid hget
    simp [GetByID, hid, hget, mapToUserOutput, HTTPRes]
  · intro ctl c w w1 n hid hget
    simp [GetProfile, hid, gin.Value.assertUint, hget, mapToUserOutput, HTTPRes]
  · intro ctl c w w1 w2 body hid hget hbind hupd
    simp [Update, hid, gin.Value.assertUint, hget, hbind, hupd, mapToUserOutput, HTTPRes]

theorem mapToUserOutput_ignores_password_witness :
    (GetProfile (fakeController (.ok { alice with Password := "other" }) none none none)
        profileContext 0).outcome
      = .response { status := 200, message := "ok",
                    data := .user (mapToUserOutput alice) } :=
  (mapToUserOutput_ignores_password alice "other").2.2.2.2.2.2.1
    (fakeController (.ok { alice with Password := "other" }) none none none)
    profileContext 0 0 1 (by decide) rfl

/-- C6: in `Update`, when the context id is the uint `n`, the lookup returns a
record `r` with `r.ID = n` and the body binds to `body`: the calls are the lookup
followed by the service's `Update` on a record whose `FirstName`, `LastName` and
`Email` are the body's and whose `ID`, `Role`, `Active` and `Password` are those
of `r`; and when that `Update` returns no error and leaves the record as it got
it, the handler answers 200 "ok" with the user output made of the body's three
values and `r`'s id, role and active flag. -/
theorem Update_writes_body_fields (ctl : userController σ) (c : Context) (w w1 : σ)
    (n : Nat) (r : User) (body : UserUpdateInput)
    (hid : c.Get "user_id" = some (.uint n))
    (hget : ctl.us.GetByID n w = (.ok r, w1))
    (hbind : c.BindUserUpdateInput = .ok body)
    (hown : r.ID = n) :
    ∃ u : User,
      (Update ctl c w).calls = [.GetByID n, .Update u] ∧
      u = { ID := r.ID, FirstName := body.FirstName, LastName := body.LastName,
            Email := body.Email, Password := r.Password, Role := r.Role,
            Active := r.Active } ∧
      (∀ w2, ctl.us.Update u w1 = ((u, none), w2) →
        (Update ctl c w).outcome
            = .response { status := 200, message := "ok",
                          data := .user { ID := r.ID, FirstName := body.FirstName,
                                          LastName := body.LastName, Email := body.Email,
                                          Role := r.Role, Active := r.Active } } ∧
          (Update ctl c w).world = w2) := by
  subst hown
  refine ⟨{ r with FirstName := body.FirstName, LastName := body.LastName,
                   Email := body.Email }, ?_, rfl, ?_⟩
  · rcases hu : ctl.us.Update (User.mk r.ID body.FirstName body.LastName body.Email
        r.Password r.Role r.Active) w1 with ⟨⟨u1, _ | err⟩, w2⟩ <;>
      simp [Update, hid, gin.Value.assertUint, hget, hbind, hu]
  · intro w2 hu
    simp [Update, hid, gin.Value.assertUint, hget, hbind, hu, HTTPRes,
      mapToUserOutput]

theorem Update_writes_body_fields_witness :
    ∃ u : User,
      (Update (fakeController (.ok alice) none none none) profileContext 0).calls
        = [.GetByID 1, .Update u] ∧
      u = { ID := 1, FirstName := "Alicia", LastName := "", Email := "alicia@example.com",
            Password := "hash", Role := "admin", Active := true } ∧
      (∀ w2, (fakeController (.ok alice) none none none).us.Update u 0 = ((u, none), w2) →
        (Update (fakeController (.ok alice) none none none) profileContext 0).outcome
            = .response { status := 200, message := "ok",
                          data := .user { ID := 1, FirstName := "Alicia", LastName := "",
                                          Email := "alicia@example.com", Role := "admin",
                                          Active := true } } ∧
          (Update (fakeController (.ok alice) none none none) profileContext 0).world
            = w2) :=
  Update_writes_body_fields (fakeController (.ok alice) none none none) profileContext 0 0 1
    alice { FirstName := "Alicia", LastName := "", Email := "alicia@example.com" }
    (by decide) rfl rfl rfl

/-- C7: in `GetProfile`, when the request context holds no `"user_id"`, the
handler answers 400 "Invalid User ID" with nil data and calls no method of
either service; the world is untouched. -/
theorem GetProfile_without_identity (ctl : userController σ) (c : Context) (w : σ)
    (hid : c.Get "user_id" = none) :
    (GetProfile ctl c w).outcome
        = .response { status := 400, message := "Invalid User ID", data := .nil } ∧
      (GetProfile ctl c w).calls = [] ∧
      (GetProfile ctl c w).world = w := by
  simp [GetProfile, hid, HTTPRes]

theorem GetProfile_without_identity_witness :
    (GetProfile (fakeController (.ok alice) none none none) emptyContext 0).outcome
        = .response { status := 400, message := "Invalid User ID", data := .nil } ∧
      (GetProfile (fakeController (.ok alice) none none none) emptyContext 0).calls = [] ∧
      (GetProfile (fakeController (.ok alice) none none none) emptyContext 0).world = 0 :=
  GetProfile_without_identity (fakeController (.ok alice) none none none) emptyContext 0 rfl

/-- C8: in `Register`, when the body binds to `input`: if `Create` returns an
error `err`, the handler answers 500 with message `err` and nil data, the only
call made is that `Create`, and `IssueToken` is not invoked; and whenever
`IssueToken x` is among the calls, `Create` has returned without error leaving
the record `x`, and the calls are that `Create` followed by `IssueToken x`. -/
theorem Register_token_only_after_create (ctl : userController σ) (c : Context) (w : σ)
    (input : UserInput) (hbind : c.BindUserInput = .ok input) :
    (∀ (u1 : User) (err : String) (w1 : σ),
        ctl.us.Create (inputToUser input) w = ((u1, some err), w1) →
        (Register ctl c w).outcome
            = .response { status := 500, message := err, data := .nil } ∧
          (Register ctl c w).calls = [.Create (inputToUser input)] ∧
          (∀ x, Call.IssueToken x ∉ (Register ctl c w).calls) ∧
          (Register ctl c w).world = w1) ∧
      (∀ x, Call.IssueToken x ∈ (Register ctl c w).calls →
        (∃ w1, ctl.us.Create (inputToUser input) w = ((x, none), w1)) ∧
          (Register ctl c w).calls = [.Create (inputToUser input), .IssueToken x]) := by
  constructor
  · intro u1 err w1 hcreate
    simp [Register, hbind, hcreate, HTTPRes]
  · intro x hx
    rcases hc : ctl.us.Create (inputToUser input) w with ⟨⟨u1, _ | err⟩, w1⟩
    · rcases hl : login ctl u1 w1 with ⟨_ | res, w2⟩ <;>
        simp [Register, hbind, hc, hl] at hx ⊢ <;> exact hx.symm
    · simp [Register, hbind, hc] at hx

theorem Register_token_only_after_create_witness :
    ((Register (fakeController (.ok alice) (some "email already exists") none none)
          credentialsContext 0).outcome
        = .response { status := 500, message := "email already exists", data := .nil } ∧
      (∀ x, Call.IssueToken x ∉
        (Register (fakeController (.ok alice) (some "email already exists") none none)
          credentialsContext 0).calls)) ∧
      (Register (fakeController (.ok alice) none none none) credentialsContext 0).calls
        = [.Create (inputToUser { Email := "alice@example.com", Password := "secret" }),
           .IssueToken { ID := 1, FirstName := "", LastName := "",
                         Email := "alice@example.com", Password := "hash", Role := "",
                         Active := true }] :=
  ⟨⟨((Register_token_only_after_create
        (fakeController (.ok alice) (some "email already exists") none none)
        credentialsContext 0 { Email := "alice@example.com", Password := "secret" } rfl).1
        (inputToUser { Email := "alice@example.com", Password := "secret" })
        "email already exists" 0 rfl).1,
     ((Register_token_only_after_create
        (fakeController (.ok alice) (some "email already exists") none none)
        credentialsContext 0 { Email := "alice@example.com", Password := "secret" } rfl).1
        (inputToUser { Email := "alice@example.com", Password := "secret" })
        "email already exists" 0 rfl).2.2.1⟩,
   ((Register_token_only_after_create (fakeController (.ok alice) none none none)
        credentialsContext 0 { Email := "alice@example.com", Password := "secret" } rfl).2
        { ID := 1, FirstName := "", LastName := "", Email := "alice@example.com",
          Password := "hash", Role := "", Active := true }
        (by simp [Register, credentialsContext, fakeController, fakeUserService,
              fakeAuthService, login, inputToUser])).2⟩

/-- C9, counterexample: the identity check of `Update` does not always fail. With the context id
the uint 1 and a lookup returning Alice, whose `ID` is 1, the body binds, the
check passes, the service's `Update` is invoked and the handler answers 200. -/
theorem Update_identity_check_passes_for_owner :
    (Update (fakeController (.ok alice) none none none) profileContext 0).outcome
        = .response { status := 200, message := "ok",
                      data := .user { ID := 1, FirstName := "Alicia", LastName := "",
                                      Email := "alicia@example.com", Role := "admin",
                                      Active := true } } ∧
      (Update (fakeController (.ok alice) none none none) profileContext 0).calls
        = [.GetByID 1,
           .Update { ID := 1, FirstName := "Alicia", LastName := "",
                     Email := "alicia@example.com", Password := "hash", Role := "admin",
                     Active := true }] ∧
      (Update (fakeController (.ok alice) none none none) profileContext 0).world = 1 := by
  refine ⟨?_, ?_, ?_⟩ <;> decide

/-- C9, as amended: in `Update`, when the context id is the uint `n`, the lookup
returns a record `r` and the body binds, the identity check reports a mismatch
exactly when `r.ID` differs from `n`: the handler answers 401 "Unauthorized" if
and only if `r.ID ≠ n`, and the service's `Update` is invoked if and only if
`r.ID = n`. -/
theorem Update_identity_check_compares_ids (ctl : userController σ) (c : Context)
    (w w1 : σ) (n : Nat) (r : User) (body : UserUpdateInput)
    (hid : c.Get "user_id" = some (.uint n))
    (hget : ctl.us.GetByID n w = (.ok r, w1))
    (hbind : c.BindUserUpdateInput = .ok body) :
    ((Update ctl c w).outcome
        = .response { status := 401, message := "Unauthorized", data := .nil }
        ↔ r.ID ≠ n) ∧
      ((∃ u, Call.Update u ∈ (Update ctl c w).calls) ↔ r.ID = n) := by
  by_cases h : r.ID = n
  · subst h
    rcases hu : ctl.us.Update (User.mk r.ID body.FirstName body.LastName body.Email
        r.Password r.Role r.Active) w1 with ⟨⟨u1, _ | err⟩, w2⟩ <;>
      simp [Update, hid, gin.Value.assertUint, hget, hbind, hu, HTTPRes]
  · have hne : gin.Value.uint r.ID ≠ gin.Value.uint n := fun e => h (gin.Value.uint.inj e)
    simp [Update, hid, gin.Value.assertUint, hget, hbind, hne, h, HTTPRes]

theorem Update_identity_check_compares_ids_witness :
    ((Update (fakeController (.ok alice) none none none) profileContext 0).outcome
        = .response { status := 401, message := "Unauthorized", data := .nil }
        ↔ alice.ID ≠ 1) ∧
      ((∃ u, Call.Update u ∈
          (Update (fakeController (.ok alice) none none none) profileContext 0).calls)
        ↔ alice.ID = 1) :=
  Update_identity_check_compares_ids (fakeController (.ok alice) none none none)
    profileContext 0 0 1 alice
    { FirstName := "Alicia", LastName := "", Email := "alicia@example.com" }
    (by decide) rfl rfl

/-- C10: `getUserID` on a text `s`. When `strconv.Atoi` parses `s` as a negative
integer `n`, `getUserID` returns no error and the unsigned value `2 ^ 64 + n`,
and `GetByID` on a request whose `id` parameter is `s` calls the service's
`GetByID` with that value and does not answer 400. `getUserID` returns the
error "user id should be a number" exactly when `Atoi` fails, and then `GetByID`
answers 400 with that message without calling the service. -/
theorem getUserID_wraps_negative_ids (s : String) :
    (∀ n : Int, strconv.Atoi s = some n → n < 0 →
      ∃ k : Nat, getUserID s = (k, none) ∧ (k : Int) = 2 ^ 64 + n ∧
        ∀ (ctl : userController σ) (c : Context) (w : σ), c.Param "id" = s →
          (GetByID ctl c w).calls = [.GetByID k] ∧
            (GetByID ctl c w).world = (ctl.us.GetByID k w).2 ∧
            ∀ r, (GetByID ctl c w).outcome = .response r → r.status ≠ 400) ∧
      ((getUserID s).2 = some "user id should be a number" ↔ strconv.Atoi s = none) ∧
      ((getUserID s).2 = none ↔ ∃ n, strconv.Atoi s = some n) ∧
      (strconv.Atoi s = none →
        ∀ (ctl : userController σ) (c : Context) (w : σ), c.Param "id" = s →
          (GetByID ctl c w).outcome
              = .response { status := 400, message := "user id should be a number",
                            data := .nil } ∧
            (GetByID ctl c w).calls = [] ∧ (GetByID ctl c w).world = w) := by
  refine ⟨?_, ?_, ?_, ?_⟩
  · intro n hn hneg
    have hr := strconv.Atoi_range s n hn
    have hk : getUserID s = ((n % 2 ^ 64).toNat, none) := by simp [getUserID, hn]
    have hv : (((n % 2 ^ 64).toNat : Nat) : Int) = 2 ^ 64 + n := by omega
    generalize (n % 2 ^ 64).toNat = k at hk hv
    refine ⟨k, hk, hv, ?_⟩
    intro ctl c w hc
    rw [← hc] at hk
    rcases hg : ctl.us.GetByID k w with ⟨es | u, w1⟩
    · by_cases hnf : strings.Contains es "not found" = true <;>
        simp [GetByID, hk, hg, hnf, HTTPRes]
    · simp [GetByID, hk, hg, HTTPRes]
  · cases hs : strconv.Atoi s <;> simp [getUserID, hs]
  · cases hs : strconv.Atoi s <;> simp [getUserID, hs]
  · intro hs ctl c w hc
    simp [GetByID, getUserID, hc, hs, HTTPRes]

theorem getUserID_wraps_negative_ids_witness :
    getUserID "-1" = (18446744073709551615, none) ∧
      (GetByID (fakeController (.ok alice) none none none) (paramContext "-1") 0).calls
        = [.GetByID 18446744073709551615] ∧
      (GetByID (fakeController (.ok alice) none none none) (paramContext "x") 0).outcome
        = .response { status := 400, message := "user id should be a number",
                      data := .nil } := by
  obtain ⟨k, hk, hval, hreq⟩ :=
    (getUserID_wraps_negative_ids (σ := Nat) "-1").1 (-1) (by decide) (by decide)
  have hk' : k = 18446744073709551615 := by omega
  subst hk'
  exact ⟨hk,
    (hreq (fakeController (.ok alice) none none none) (paramContext "-1") 0 (by decide)).1,
    ((getUserID_wraps_negative_ids (σ := Nat) "x").2.2.2 (by decide)
      (fakeController (.ok alice) none none none) (paramContext "x") 0 (by decide)).1⟩

end controllers
